import Mathlib

/-!
Shallow embedding of `src/telemetry_system.py` (a telemetry collection and
ChatGPT analysis tool) and proofs about the claims of its specification.

Modelling conventions:
* Decoded Python/JSON values are the inductive `PyVal`; Python dicts are
  insertion-ordered association lists, as in CPython.
* Python `float` values are modelled as the exact rational numbers denoted by
  the source literals (`Rat`); `repr` of floats is modelled by a plain decimal
  printer, which only affects the rendered bytes of numeric leaves.
* Python strings are Lean `String`s; `str.strip()` is modelled by trimming
  the ASCII whitespace characters recognised by `Char.isWhitespace`.
* OS facilities (clock, platform identity, `os.getloadavg`, the `/proc`
  files) are an explicit environment record `Env`; an exception raised by an
  OS call is an `Except.error`.
* The single HTTP exchange of `analyze` is an environment-supplied
  `NetOutcome`; `json.loads` on the 2xx body is modelled by the decode result
  carried inside the outcome, since it is a standard-library call.
-/

/-- A decoded Python value (the result of `json.loads`, and the payloads the
program builds): `None`, `bool`, `int`, `float`, `str`, `list`, `dict`. -/
inductive PyVal where
  | pnone
  | pbool (b : Bool)
  | pint (n : Int)
  | pfloat (q : Rat)
  | pstr (s : String)
  | plist (xs : List PyVal)
  | pdict (kvs : List (String × PyVal))

/-- Python `dict.get k` (with default `None` handled at use sites):
first binding of the key in the association list. -/
def pyGet (kvs : List (String × PyVal)) (k : String) : Option PyVal :=
  (kvs.find? (fun kv => kv.1 == k)).map (fun kv => kv.2)

/-- Python `d[k] = v`: replace the binding in place if the key is present
(keeping its position), otherwise append a new binding. -/
def pySet (kvs : List (String × PyVal)) (k : String) (v : PyVal) :
    List (String × PyVal) :=
  if kvs.any (fun kv => kv.1 == k) then
    kvs.map (fun kv => if kv.1 == k then (k, v) else kv)
  else kvs ++ [(k, v)]

/-- Python `base.update(upd)` on dicts. -/
def pyDictUpdate (base upd : List (String × PyVal)) : List (String × PyVal) :=
  upd.foldl (fun acc kv => pySet acc kv.1 kv.2) base

/-- The keys of an association list are pairwise distinct (the invariant of
every real Python dict). -/
def NodupKeys (kvs : List (String × PyVal)) : Prop :=
  (kvs.map Prod.fst).Nodup

/-- Lexicographic `≤` on strings as character lists, by code point — the
order Python's `sort_keys=True` uses on ASCII keys. -/
def charsLe : List Char → List Char → Bool
  | [], _ => true
  | _ :: _, [] => false
  | c :: cs, d :: ds => if c = d then charsLe cs ds else decide (c < d)

/-- Key order for `sort_keys=True`. -/
def strLe (a b : String) : Bool := charsLe a.data b.data

/-- The key comparison used by the key sort, as a relation on entries. -/
def kvLe (a b : String × PyVal) : Prop := strLe a.1 b.1 = true

instance : DecidableRel kvLe := fun a b => instDecidableEqBool (strLe a.1 b.1) true

/-- Sort dict entries by key (Python `sort_keys=True`). -/
def sortKV (kvs : List (String × PyVal)) : List (String × PyVal) :=
  kvs.insertionSort kvLe

/-- One hexadecimal digit (lowercase), for `\uXXXX` escapes. -/
def hexDigit (n : Nat) : Char :=
  if n < 10 then Char.ofNat ('0'.toNat + n) else Char.ofNat ('a'.toNat + n - 10)

/-- Four-digit lowercase hexadecimal rendering. -/
def hex4 (n : Nat) : String :=
  String.mk [hexDigit (n / 4096 % 16), hexDigit (n / 256 % 16),
    hexDigit (n / 16 % 16), hexDigit (n % 16)]

/-- `\uXXXX` escape of a character, with surrogate pairs beyond U+FFFF,
as CPython's `json` module emits with `ensure_ascii=True`. -/
def uEscape (c : Char) : String :=
  let n := c.toNat
  if n < 65536 then "\\u" ++ hex4 n
  else
    let m := n - 65536
    "\\u" ++ hex4 (55296 + m / 1024) ++ "\\u" ++ hex4 (56320 + m % 1024)

/-- JSON escaping of one character (CPython `json` with `ensure_ascii=True`:
everything outside `0x20`–`0x7e` is escaped). -/
def escapeChar (c : Char) : String :=
  if c = '"' then "\\\""
  else if c = '\\' then "\\\\"
  else if c = '\n' then "\\n"
  else if c = '\t' then "\\t"
  else if c = '\x0d' then "\\r"
  else if c = '\x08' then "\\b"
  else if c = '\x0c' then "\\f"
  else if c.toNat < 32 || 126 < c.toNat then uEscape c
  else String.singleton c

/-- A JSON string literal: quoted, escaped. -/
def jsonQuote (s : String) : String :=
  "\"" ++ String.join (s.data.map escapeChar) ++ "\""

/-- Least `k ≤ 400` such that `10^k` is divisible by `d` (exists for every
binary float denominator). -/
def pow10div (d : Nat) : Option Nat :=
  (List.range 400).find? (fun k => 10 ^ k % d == 0)

/-- Left-pad a string with zeros to length `k`. -/
def padZeros (s : String) (k : Nat) : String :=
  String.mk (List.replicate (k - s.length) '0') ++ s

/-- Decimal rendering of a Python float modelled as a rational: exact decimal
expansion when the denominator divides a power of ten (always, for floats),
with at least one fractional digit, as in `repr(0.2) = "0.2"`,
`repr(1.0) = "1.0"`. -/
def floatRepr (q : Rat) : String :=
  let sign := if q < 0 then "-" else ""
  let n := q.num.natAbs
  let d := q.den
  match pow10div d with
  | some k =>
      let scaled := n * 10 ^ k / d
      let ip := scaled / 10 ^ k
      let fp := scaled % 10 ^ k
      let frac := if k = 0 then "0" else padZeros (toString fp) k
      sign ++ toString ip ++ "." ++ frac
  | none => sign ++ toString n ++ "/" ++ toString d

mutual

/-- `json.dumps(v)` with default options (`indent=None`, `sort_keys=False`,
separators `", "` and `": "`) — used for the outbound request body. -/
def dumpC : PyVal → String
  | .pnone => "null"
  | .pbool b => if b then "true" else "false"
  | .pint n => toString n
  | .pfloat q => floatRepr q
  | .pstr s => jsonQuote s
  | .plist xs => "[" ++ dumpCL xs ++ "]"
  | .pdict kvs => "\x7b" ++ dumpCK kvs ++ "\x7d"

/-- Comma-joined compact rendering of list items. -/
def dumpCL : List PyVal → String
  | [] => ""
  | [x] => dumpC x
  | x :: xs => dumpC x ++ ", " ++ dumpCL xs

/-- Comma-joined compact rendering of dict entries. -/
def dumpCK : List (String × PyVal) → String
  | [] => ""
  | [(k, v)] => jsonQuote k ++ ": " ++ dumpC v
  | (k, v) :: xs => jsonQuote k ++ ": " ++ dumpC v ++ ", " ++ dumpCK xs

end

/-- `2 * lvl` spaces, the `indent=2` prefix at nesting level `lvl`. -/
def indentStr (lvl : Nat) : String :=
  String.mk (List.replicate (2 * lvl) ' ')

mutual

/-- `json.dumps(v, indent=2)` rendering at nesting level `lvl` (keys are
sorted beforehand by `canon`, see `TelemetrySnapshot.to_json`). -/
def dumpP (lvl : Nat) : PyVal → String
  | .plist [] => "[]"
  | .plist (x :: xs) =>
      "[\n" ++ dumpPL (lvl + 1) (x :: xs) ++ "\n" ++ indentStr lvl ++ "]"
  | .pdict [] => "\x7b\x7d"
  | .pdict (kv :: kvs) =>
      "\x7b\n" ++ dumpPK (lvl + 1) (kv :: kvs) ++ "\n" ++ indentStr lvl ++ "\x7d"
  | v => dumpC v

/-- Indented `",\n"`-joined rendering of list items. -/
def dumpPL (lvl : Nat) : List PyVal → String
  | [] => ""
  | [x] => indentStr lvl ++ dumpP lvl x
  | x :: xs => indentStr lvl ++ dumpP lvl x ++ ",\n" ++ dumpPL lvl xs

/-- Indented `",\n"`-joined rendering of dict entries. -/
def dumpPK (lvl : Nat) : List (String × PyVal) → String
  | [] => ""
  | [(k, v)] => indentStr lvl ++ jsonQuote k ++ ": " ++ dumpP lvl v
  | (k, v) :: xs =>
      indentStr lvl ++ jsonQuote k ++ ": " ++ dumpP lvl v ++ ",\n" ++ dumpPK lvl xs

end

mutual

/-- Recursively sort every dict of a value by key: `sort_keys=True` is
modelled by canonicalising first and then rendering with `dumpP`, which is
byte-for-byte the order CPython's serializer visits the entries in. -/
def canon : PyVal → PyVal
  | .plist xs => .plist (canonL xs)
  | .pdict kvs => .pdict (sortKV (canonK kvs))
  | v => v

/-- `canon` mapped over a list. -/
def canonL : List PyVal → List PyVal
  | [] => []
  | x :: xs => canon x :: canonL xs

/-- `canon` mapped over the values of dict entries. -/
def canonK : List (String × PyVal) → List (String × PyVal)
  | [] => []
  | (k, v) :: xs => (k, canon v) :: canonK xs

end

/-- `TelemetrySnapshot`: container for telemetry data (`data: Dict[str, Any]`). -/
structure TelemetrySnapshot where
  data : List (String × PyVal)

/-- `TelemetrySnapshot.to_json`: `json.dumps(self.data, indent=2, sort_keys=True)`. -/
def TelemetrySnapshot.to_json (s : TelemetrySnapshot) : String :=
  dumpP 0 (canon (.pdict s.data))

/-! ## The Snapshot Assembler (`TelemetryCollector`) -/

/-- `Char.isWhitespace`, the model of the whitespace class `str.strip()` removes. -/
def isSpaceChar (c : Char) : Bool := c.isWhitespace

/-- `str.strip()` on a character list: drop whitespace from both ends. -/
def stripChars (l : List Char) : List Char :=
  ((l.dropWhile isSpaceChar).reverse.dropWhile isSpaceChar).reverse

/-- `str.strip()` (model). -/
def pyStrip (s : String) : String := String.mk (stripChars s.data)

/-- `":" in line`. -/
def hasColon (l : List Char) : Bool := l.contains ':'

/-- `line.split(":", 1)`: the text before the first colon and the text after
it (the first colon is the delimiter; later colons stay in the second part). -/
def splitFirstColon (l : List Char) : List Char × List Char :=
  (l.takeWhile (fun c => c != ':'), (l.dropWhile (fun c => c != ':')).drop 1)

/-- `parsed[key] = value` on an association list with character-list keys:
replace in place if present, else append. -/
def setKVChars (m : List (List Char × List Char)) (k v : List Char) :
    List (List Char × List Char) :=
  if m.any (fun kv => kv.1 == k) then
    m.map (fun kv => if kv.1 == k then (k, v) else kv)
  else m ++ [(k, v)]

/-- The line loop of `TelemetryCollector._parse_key_value_file`: skip a line
whose `strip()` is empty, skip a line with no colon, otherwise split at the
first colon and store both sides stripped. -/
def parseKVLines (lines : List (List Char)) : List (List Char × List Char) :=
  lines.foldl
    (fun parsed line =>
      if (stripChars line).isEmpty then parsed
      else if !hasColon line then parsed
      else
        setKVChars parsed (stripChars (splitFirstColon line).1)
          (stripChars (splitFirstColon line).2))
    []

/-- A file system state: `none` when the path does not exist, `some (.error ())`
when it exists but opening/reading it raises `OSError`, `some (.ok lines)`
when reading succeeds with the given lines. -/
abbrev FileSys := String → Option (Except Unit (List (List Char)))

/-- `TelemetryCollector._parse_key_value_file` with its `try/except OSError`:
any failure to open or read the file yields the empty mapping. -/
def parse_key_value_file (fs : FileSys) (path : String) :
    List (List Char × List Char) :=
  match fs path with
  | some (.ok lines) => parseKVLines lines
  | _ => []

/-- The OS facilities `collect()` consumes. `loadavg = none` models a host
where `os.getloadavg` is absent (`hasattr` is false); `some (.error ())`
models the facility being present but raising `OSError` when called;
`some (.ok _)` is a successful reading. -/
structure Env where
  time : Rat
  system : String
  release : String
  osVersion : String
  machine : String
  pythonVersion : String
  loadavg : Option (Except Unit (Rat × Rat × Rat))
  pid : Int
  cpuUser : Rat
  cpuSystem : Rat
  cpuChildrenUser : Rat
  cpuChildrenSystem : Rat
  elapsed : Rat
  fs : FileSys

/-- `TelemetryCollector._platform_info`. -/
def platform_info (env : Env) : List (String × PyVal) :=
  [("system", .pstr env.system), ("release", .pstr env.release),
   ("version", .pstr env.osVersion), ("machine", .pstr env.machine),
   ("python", .pstr env.pythonVersion)]

/-- `TelemetryCollector._load_average`: `None` when the facility is absent,
the three-key mapping when it answers, a propagated `OSError` when the
facility itself raises. -/
def load_average (env : Env) : Except Unit (Option (List (String × PyVal))) :=
  match env.loadavg with
  | none => .ok none
  | some (.error e) => .error e
  | some (.ok (one, five, fifteen)) =>
      .ok (some [("1min", .pfloat one), ("5min", .pfloat five),
                 ("15min", .pfloat fifteen)])

/-- Turn the parsed character-list pairs into dict entries of string values. -/
def kvToPy (kvs : List (List Char × List Char)) : List (String × PyVal) :=
  kvs.map (fun kv => (String.mk kv.1, .pstr (String.mk kv.2)))

/-- `TelemetryCollector._memory_info`: start from an empty dict and, when
`/proc/meminfo` exists, merge the parsed key/value pairs into it. -/
def memory_info (env : Env) : List (String × PyVal) :=
  if (env.fs "/proc/meminfo").isSome then
    pyDictUpdate [] (kvToPy (parse_key_value_file env.fs "/proc/meminfo"))
  else []

/-- The f-string path `f"/proc/.../status"` of the per-process status file. -/
def statusPath (pid : Int) : String := "/proc/" ++ toString pid ++ "/status"

/-- `TelemetryCollector._process_info`: the fixed pid/CPU-time/elapsed fields,
merged with the parsed status file when it exists. -/
def process_info (env : Env) : List (String × PyVal) :=
  let info : List (String × PyVal) :=
    [("pid", .pint env.pid),
     ("cpu_time_user", .pfloat env.cpuUser),
     ("cpu_time_system", .pfloat env.cpuSystem),
     ("cpu_time_children_user", .pfloat env.cpuChildrenUser),
     ("cpu_time_children_system", .pfloat env.cpuChildrenSystem),
     ("elapsed", .pfloat env.elapsed)]
  if (env.fs (statusPath env.pid)).isSome then
    pyDictUpdate info (kvToPy (parse_key_value_file env.fs (statusPath env.pid)))
  else info

/-- `TelemetryCollector.collect`: assemble the five-section snapshot; the
only uncaught exception path is `os.getloadavg()` itself raising. -/
def collect (env : Env) : Except Unit TelemetrySnapshot :=
  match load_average env with
  | .error e => .error e
  | .ok la =>
      .ok ⟨[("timestamp", .pfloat env.time),
            ("platform", .pdict (platform_info env)),
            ("load_average", match la with | none => .pnone | some kvs => .pdict kvs),
            ("memory", .pdict (memory_info env)),
            ("process", .pdict (process_info env))]⟩

/-! ## The Analysis Client (`ChatGPTTelemetryAnalyzer`) -/

/-- Constructor arguments of `ChatGPTTelemetryAnalyzer`. -/
structure AnalyzerConfig where
  api_key : String
  model : String
  endpoint : String
  request_timeout : Option Rat

/-- The observable parts of a `urllib.request.Request`. -/
structure HttpRequest where
  url : String
  data : String
  headers : List (String × String)
  method : String

/-- The fixed system instruction of the payload. -/
def systemContent : String :=
  "You are a telemetry analyst. Provide concise feedback highlighting potential issues or anomalies."

/-- The user message: fixed prose followed by the snapshot's JSON in a fenced
code block. -/
def userContent (snapshot : TelemetrySnapshot) : String :=
  "Here is a telemetry snapshot. Summarize notable points and suggest next steps if something looks problematic.\n\n"
    ++ "```json\n" ++ snapshot.to_json ++ "\n```"

/-- The `payload` dict built at the start of `analyze`. -/
def payloadVal (cfg : AnalyzerConfig) (snapshot : TelemetrySnapshot) : PyVal :=
  .pdict
    [("model", .pstr cfg.model),
     ("messages", .plist
        [.pdict [("role", .pstr "system"), ("content", .pstr systemContent)],
         .pdict [("role", .pstr "user"), ("content", .pstr (userContent snapshot))]]),
     ("temperature", .pfloat (mkRat 1 5))]

/-- The `urllib.request.Request` built by `analyze`. -/
def buildRequest (cfg : AnalyzerConfig) (snapshot : TelemetrySnapshot) : HttpRequest :=
  { url := cfg.endpoint,
    data := dumpC (payloadVal cfg snapshot),
    headers := [("Content-Type", "application/json"),
                ("Authorization", "Bearer " ++ cfg.api_key)],
    method := "POST" }

/-- The outcome of the single `urlopen` exchange: a 2xx response (carrying
the result of `json.loads` on its body, since decoding is a stdlib call), a
non-2xx `HTTPError` with status code and best-effort-decoded error body, or
a `URLError` (DNS failure, connection refused, timeout before a response)
whose `cause` is the exception's string form. -/
inductive NetOutcome where
  | success (decoded : Except String PyVal)
  | httpError (code : Int) (body : String)
  | urlError (cause : String)

/-- The exceptions `analyze` can let escape: the `RuntimeError`s it raises
itself, the `json.JSONDecodeError` of `json.loads`, and the `AttributeError`
of calling `.get` on a decoded non-dict body. -/
inductive PyError where
  | runtimeError (msg : String)
  | jsonDecodeError (msg : String)
  | attributeError (msg : String)

/-- Python iteration over a decoded value: lists yield their items, dicts
their keys, strings their one-character substrings; `None`, booleans and
numbers are not `Iterable`. -/
def iterElems : PyVal → Option (List PyVal)
  | .plist xs => some xs
  | .pdict kvs => some (kvs.map (fun kv => .pstr kv.1))
  | .pstr s => some (s.data.map (fun c => .pstr (String.singleton c)))
  | _ => none

/-- The body of the extraction loop for one choice: `choice.get("message")`
when the choice is a `Mapping` (else `None`), then `message.get("content")`
when the message is a `Mapping`, yielding the content exactly when it is a
`str`. -/
def contentStrOf (c : PyVal) : Option String :=
  match c with
  | .pdict ckvs =>
      match (pyGet ckvs "message").getD .pnone with
      | .pdict mkvs =>
          match (pyGet mkvs "content").getD .pnone with
          | .pstr s => some s
          | _ => none
      | _ => none
  | _ => none

/-- `ChatGPTTelemetryAnalyzer._extract_message`: get `choices`, return `""`
unless it is `Iterable`, else return the stripped content of the first
choice whose message content is a `str`, or `""` when the loop falls
through. -/
def extract_message (response_json : List (String × PyVal)) : String :=
  match iterElems ((pyGet response_json "choices").getD .pnone) with
  | none => ""
  | some elems =>
      match elems.findSome? contentStrOf with
      | some s => pyStrip s
      | none => ""

/-- `ChatGPTTelemetryAnalyzer.analyze`, with an explicit log of the HTTP
requests issued (the code issues exactly one `urlopen`, so the log is the
one built request). -/
def analyzeWithLog (cfg : AnalyzerConfig) (snapshot : TelemetrySnapshot)
    (net : NetOutcome) : Except PyError PyVal × List HttpRequest :=
  let req := buildRequest cfg snapshot
  let result : Except PyError PyVal :=
    match net with
    | .httpError code body =>
        .error (.runtimeError
          ("ChatGPT API returned HTTP " ++ toString code ++ ": " ++ body))
    | .urlError cause =>
        .error (.runtimeError ("Failed to reach ChatGPT API: " ++ cause))
    | .success (.error msg) => .error (.jsonDecodeError msg)
    | .success (.ok parsed) =>
        match parsed with
        | .pdict kvs =>
            .ok (.pdict [("analysis", .pstr (extract_message kvs)),
                         ("raw_response", parsed)])
        | _ => .error (.attributeError "object has no attribute get")
  (result, [req])

/-! ## Specification-side definitions (for refinement claims) -/

/-- Written from the spec's words for claim C2: iterate the `choices` list in
order and return the first message content that is a non-empty string, with
surrounding whitespace trimmed; `""` when no choice yields non-empty text or
the field is structurally absent or wrongly typed. -/
def specNonEmptyLoop : List PyVal → String
  | [] => ""
  | c :: rest =>
      match contentStrOf c with
      | some s => if s.isEmpty then specNonEmptyLoop rest else pyStrip s
      | none => specNonEmptyLoop rest

/-- The spec's extraction rule of claim C2 (first NON-EMPTY textual content). -/
def specFirstNonEmpty (response_json : List (String × PyVal)) : String :=
  match (pyGet response_json "choices").getD .pnone with
  | .plist elems => specNonEmptyLoop elems
  | _ => ""

/-- The amended extraction rule: the first string-typed message content,
trimmed — even when that string is empty or whitespace-only — or `""` when
no choice has string-typed content. -/
def specFirstStr (response_json : List (String × PyVal)) : String :=
  match (pyGet response_json "choices").getD .pnone with
  | .plist elems =>
      match elems.findSome? contentStrOf with
      | some s => pyStrip s
      | none => ""
  | _ => ""

/-- No choice of the response yields string-typed message content (this
includes `choices` being absent, non-iterable, or empty). -/
def noStringContent (response_json : List (String × PyVal)) : Bool :=
  match iterElems ((pyGet response_json "choices").getD .pnone) with
  | none => true
  | some elems => elems.all (fun c => (contentStrOf c).isNone)

/-- Written from the spec's words for claim C5: process exactly the lines
containing a colon — split each at the first colon, strip both sides, store —
and ignore every other line. -/
def specParseKV (lines : List (List Char)) : List (List Char × List Char) :=
  lines.foldl
    (fun parsed line =>
      if hasColon line then
        setKVChars parsed (stripChars (splitFirstColon line).1)
          (stripChars (splitFirstColon line).2)
      else parsed)
    []

/-- Classifier: is this one of the `RuntimeError`s `analyze` raises itself
(the protocol-error and transport-error kinds)? -/
def PyError.isRuntime : PyError → Bool
  | .runtimeError _ => true
  | _ => false

/-! ## Content equality of Python values -/

mutual

/-- Two decoded values hold identical content (Python `==` on JSON-shaped
data): scalars are equal, lists match pointwise, and dicts with
pairwise-distinct keys carry the same bindings up to insertion order —
`xs` matches some `zs` entry-for-entry (same key, equivalent value) and `zs`
is a permutation of `ys`. -/
inductive PyEquiv : PyVal → PyVal → Prop where
  | pnone : PyEquiv .pnone .pnone
  | pbool (b : Bool) : PyEquiv (.pbool b) (.pbool b)
  | pint (n : Int) : PyEquiv (.pint n) (.pint n)
  | pfloat (q : Rat) : PyEquiv (.pfloat q) (.pfloat q)
  | pstr (s : String) : PyEquiv (.pstr s) (.pstr s)
  | plist (xs ys : List PyVal) : PyEquivL xs ys → PyEquiv (.plist xs) (.plist ys)
  | pdict (xs ys zs : List (String × PyVal)) : NodupKeys xs → NodupKeys ys →
      PyEquivK xs zs → List.Perm zs ys → PyEquiv (.pdict xs) (.pdict ys)

/-- Pointwise `PyEquiv` on lists. -/
inductive PyEquivL : List PyVal → List PyVal → Prop where
  | nil : PyEquivL [] []
  | cons (x y : PyVal) (xs ys : List PyVal) :
      PyEquiv x y → PyEquivL xs ys → PyEquivL (x :: xs) (y :: ys)

/-- Pointwise same-key, equivalent-value correspondence of dict entries. -/
inductive PyEquivK : List (String × PyVal) → List (String × PyVal) → Prop where
  | nil : PyEquivK [] []
  | cons (k : String) (v w : PyVal) (xs ys : List (String × PyVal)) :
      PyEquiv v w → PyEquivK xs ys → PyEquivK ((k, v) :: xs) ((k, w) :: ys)

end

instance (l : List (String × PyVal)) : Decidable (NodupKeys l) := by
  unfold NodupKeys; infer_instance

/-! ## Concrete fixtures used by witnesses and counterexamples -/

/-- A concrete host state: no load-average facility, empty file system. -/
def envBase : Env :=
  { time := mkRat 1700000000 1, system := "Linux", release := "6.1.0",
    osVersion := "#1 SMP", machine := "x86_64", pythonVersion := "3.11.4",
    loadavg := none, pid := 1234,
    cpuUser := mkRat 1 2, cpuSystem := mkRat 1 4, cpuChildrenUser := mkRat 0 1,
    cpuChildrenSystem := mkRat 0 1, elapsed := mkRat 100 1,
    fs := fun _ => none }

/-- `envBase` with a working load-average facility. -/
def envLoad : Env :=
  { envBase with loadavg := some (.ok (mkRat 1 1, mkRat 2 1, mkRat 3 1)) }

/-- `envBase` with a load-average facility that raises `OSError`. -/
def envRaise : Env := { envBase with loadavg := some (.error ()) }

/-- `envBase` where every file exists but raises `OSError` when read. -/
def envFsErr : Env := { envBase with fs := fun _ => some (.error ()) }

/-- A concrete analyzer configuration. -/
def cfgEx : AnalyzerConfig :=
  { api_key := "k", model := "gpt-4o-mini",
    endpoint := "https://api.openai.com/v1/chat/completions",
    request_timeout := some (mkRat 30 1) }

/-- A concrete snapshot value. -/
def snapEx : TelemetrySnapshot := ⟨[("timestamp", .pfloat (mkRat 1 1))]⟩

/-- The error body of the spec's HTTP-401 example. -/
def body401 : String := "\x7b\"error\":\"bad key\"\x7d"

/-- A decoded response whose first choice has empty string content and whose
second has `"hi"`. -/
def respC2 : List (String × PyVal) :=
  [("choices", .plist
    [.pdict [("message", .pdict [("content", .pstr "")])],
     .pdict [("message", .pdict [("content", .pstr "hi")])]])]

/-- Concrete lines for the parser witness: a normal entry, a blank line, a
line with no colon, and an entry whose value contains a colon. -/
def linesEx : List (List Char) :=
  ["MemTotal:   16324356 kB".data, "   ".data, "no colon here".data,
   "a:b:c".data]

/-- A host with a load average, pid 7, and a readable status file holding a
normal entry, a blank line, a colonless line and a second entry. -/
def envT : Env :=
  { time := mkRat 3 2, system := "Linux", release := "r", osVersion := "v",
    machine := "m", pythonVersion := "p",
    loadavg := some (.ok (mkRat 1 2, mkRat 1 4, mkRat 1 8)), pid := 7,
    cpuUser := mkRat 1 1, cpuSystem := mkRat 0 1, cpuChildrenUser := mkRat 0 1,
    cpuChildrenSystem := mkRat 0 1, elapsed := mkRat 5 1,
    fs := fun p =>
      if p = "/proc/7/status" then
        some (.ok ["Name:  python3".data, "".data, "nocolon".data, "Pid: 7".data])
      else none }

/-- Snapshot fixture: two sections inserted in one order. -/
def snapW1 : TelemetrySnapshot :=
  ⟨[("b", .pint 1), ("a", .pdict [("y", .pstr "v"), ("x", .pint 2)])]⟩

/-- The same content as `snapW1`, inserted in a different order at both
levels. -/
def snapW2 : TelemetrySnapshot :=
  ⟨[("a", .pdict [("x", .pint 2), ("y", .pstr "v")]), ("b", .pint 1)]⟩

/-! ## Behavioral checks of the embedding -/

example : dumpC (.pfloat (mkRat 1 5)) = "0.2" := rfl
example : dumpC (.pfloat (mkRat 2 1)) = "2.0" := rfl
example : dumpC (.plist [.pint 1, .pnone]) = "[1, null]" := rfl
example : TelemetrySnapshot.to_json ⟨[("b", .pint 1), ("a", .pstr "x")]⟩ =
    "\x7b\n  \"a\": \"x\",\n  \"b\": 1\n\x7d" := rfl

example :
    extract_message [("choices", .plist [.pdict [("message",
      .pdict [("content", .pstr " hello ")])]])] = "hello" := rfl

example : extract_message respC2 = "" := rfl

example : specFirstNonEmpty respC2 = "hi" := rfl

example :
    TelemetrySnapshot.to_json
      ⟨[("b", .pint 1), ("a", .pdict [("y", .pstr "v"), ("x", .pint 2)])]⟩ =
    "\x7b\n  \"a\": \x7b\n    \"x\": 2,\n    \"y\": \"v\"\n  \x7d,\n  \"b\": 1\n\x7d" := rfl

example :
    dumpC (.pdict [("model", .pstr "m"), ("temperature", .pfloat (mkRat 1 5)),
      ("xs", .plist [.pint 1, .pnone, .pbool true])]) =
    "\x7b\"model\": \"m\", \"temperature\": 0.2, \"xs\": [1, null, true]\x7d" := rfl

example :
    parseKVLines ["Key:  va:lue  ".data] = [("Key".data, "va:lue".data)] := by
  decide

example :
    pyDictUpdate [("pid", .pint 1), ("a", .pint 2)] [("a", .pint 9), ("z", .pint 3)] =
    [("pid", .pint 1), ("a", .pint 9), ("z", .pint 3)] := rfl

example :
    (collect envT).map (fun s => pyGet s.data "process") =
      .ok (some (.pdict [("pid", .pint 7), ("cpu_time_user", .pfloat (mkRat 1 1)),
        ("cpu_time_system", .pfloat (mkRat 0 1)),
        ("cpu_time_children_user", .pfloat (mkRat 0 1)),
        ("cpu_time_children_system", .pfloat (mkRat 0 1)),
        ("elapsed", .pfloat (mkRat 5 1)),
        ("Name", .pstr "python3"), ("Pid", .pstr "7")])) := rfl

set_option maxRecDepth 100000 in
example :
    (collect envT).map (fun s => s.to_json) =
      .ok "\x7b\n  \"load_average\": \x7b\n    \"15min\": 0.125,\n    \"1min\": 0.5,\n    \"5min\": 0.25\n  \x7d,\n  \"memory\": \x7b\x7d,\n  \"platform\": \x7b\n    \"machine\": \"m\",\n    \"python\": \"p\",\n    \"release\": \"r\",\n    \"system\": \"Linux\",\n    \"version\": \"v\"\n  \x7d,\n  \"process\": \x7b\n    \"Name\": \"python3\",\n    \"Pid\": \"7\",\n    \"cpu_time_children_system\": 0.0,\n    \"cpu_time_children_user\": 0.0,\n    \"cpu_time_system\": 0.0,\n    \"cpu_time_user\": 1.0,\n    \"elapsed\": 5.0,\n    \"pid\": 7\n  \x7d,\n  \"timestamp\": 1.5\n\x7d" := rfl

/-! ## Order lemmas for the key sort -/

theorem charsLe_total : ∀ a b : List Char, charsLe a b = true ∨ charsLe b a = true
  | [], _ => Or.inl rfl
  | _ :: _, [] => Or.inr rfl
  | c :: cs, d :: ds => by
      by_cases h : c = d
      · subst h
        simpa [charsLe] using charsLe_total cs ds
      · rcases lt_or_gt_of_ne h with hlt | hgt
        · exact Or.inl (by simp [charsLe, h, hlt])
        · exact Or.inr (by simp [charsLe, Ne.symm h, hgt])

theorem charsLe_trans : ∀ a b c : List Char,
    charsLe a b = true → charsLe b c = true → charsLe a c = true
  | [], _, _, _, _ => rfl
  | x :: xs, [], _, h1, _ => by simp [charsLe] at h1
  | _ :: _, _ :: _, [], _, h2 => by simp [charsLe] at h2
  | x :: xs, y :: ys, z :: zs, h1, h2 => by
      by_cases hxy : x = y <;> by_cases hyz : y = z
      · subst hxy; subst hyz
        simp only [charsLe, if_pos rfl] at h1 h2 ⊢
        exact charsLe_trans xs ys zs h1 h2
      · subst hxy
        simp only [charsLe, if_neg hyz, decide_eq_true_eq] at h2
        simp [charsLe, hyz, h2]
      · subst hyz
        simp only [charsLe, if_neg hxy, decide_eq_true_eq] at h1
        simp [charsLe, hxy, h1]
      · simp only [charsLe, if_neg hxy, decide_eq_true_eq] at h1
        simp only [charsLe, if_neg hyz, decide_eq_true_eq] at h2
        have hxz : x < z := lt_trans h1 h2
        simp [charsLe, ne_of_lt hxz, hxz]

theorem charsLe_antisymm : ∀ a b : List Char,
    charsLe a b = true → charsLe b a = true → a = b
  | [], [], _, _ => rfl
  | [], _ :: _, _, h2 => by simp [charsLe] at h2
  | _ :: _, [], h1, _ => by simp [charsLe] at h1
  | x :: xs, y :: ys, h1, h2 => by
      by_cases hxy : x = y
      · subst hxy
        simp only [charsLe, if_pos rfl] at h1 h2
        rw [charsLe_antisymm xs ys h1 h2]
      · simp only [charsLe, if_neg hxy, decide_eq_true_eq] at h1
        simp only [charsLe, if_neg (Ne.symm hxy), decide_eq_true_eq] at h2
        exact absurd (lt_trans h1 h2) (lt_irrefl x)

theorem strLe_antisymm_keys {a b : String} (h1 : strLe a b = true)
    (h2 : strLe b a = true) : a = b := by
  cases a; cases b
  exact congrArg String.mk (charsLe_antisymm _ _ h1 h2)

/-- The strict key comparison: keys strictly increase. -/
def kvLt (a b : String × PyVal) : Prop := strLe a.1 b.1 = true ∧ a.1 ≠ b.1

theorem sortKV_perm (l : List (String × PyVal)) : List.Perm (sortKV l) l :=
  List.perm_insertionSort _ l

theorem sortKV_sorted (l : List (String × PyVal)) : List.Sorted kvLe (sortKV l) := by
  haveI : IsTotal (String × PyVal) kvLe := ⟨fun a b => charsLe_total a.1.data b.1.data⟩
  haveI : IsTrans (String × PyVal) kvLe :=
    ⟨fun a b c h1 h2 => charsLe_trans a.1.data b.1.data c.1.data h1 h2⟩
  exact List.sorted_insertionSort _ l

theorem nodupKeys_iff_pairwise {l : List (String × PyVal)} :
    NodupKeys l ↔ l.Pairwise (fun a b => a.1 ≠ b.1) := by
  unfold NodupKeys List.Nodup
  rw [List.pairwise_map]

theorem nodupKeys_of_perm {l1 l2 : List (String × PyVal)} (h : List.Perm l1 l2)
    (hnd : NodupKeys l1) : NodupKeys l2 :=
  ((h.map Prod.fst).nodup_iff).mp hnd

/-- Two key-sorted association lists with pairwise-distinct keys that are
permutations of each other are equal: the sorted order is unique. -/
theorem sortKV_eq_of_perm {l1 l2 : List (String × PyVal)} (h : List.Perm l1 l2)
    (hnd : NodupKeys l1) : sortKV l1 = sortKV l2 := by
  haveI : IsAntisymm (String × PyVal) kvLt :=
    ⟨fun a b h1 h2 => absurd (strLe_antisymm_keys h1.1 h2.1) h1.2⟩
  have hperm : List.Perm (sortKV l1) (sortKV l2) :=
    (sortKV_perm l1).trans (h.trans (sortKV_perm l2).symm)
  have hs1 : List.Sorted kvLt (sortKV l1) := by
    have hpair := nodupKeys_iff_pairwise.mp (nodupKeys_of_perm (sortKV_perm l1).symm hnd)
    exact ((sortKV_sorted l1).and hpair).imp (fun hab => hab)
  have hs2 : List.Sorted kvLt (sortKV l2) := by
    have hnd2 : NodupKeys l2 := nodupKeys_of_perm h hnd
    have hpair := nodupKeys_iff_pairwise.mp (nodupKeys_of_perm (sortKV_perm l2).symm hnd2)
    exact ((sortKV_sorted l2).and hpair).imp (fun hab => hab)
  exact List.eq_of_perm_of_sorted hperm hs1 hs2

/-- `canonK` is mapping `canon` over the values. -/
theorem canonK_eq_map (l : List (String × PyVal)) :
    canonK l = l.map (fun kv => (kv.1, canon kv.2)) := by
  induction l with
  | nil => rfl
  | cons kv rest ih => cases kv; simp [canonK, ih]

/-- `PyEquivK` preserves the key sequence. -/
theorem equivK_keys : ∀ {xs zs : List (String × PyVal)}, PyEquivK xs zs →
    xs.map Prod.fst = zs.map Prod.fst
  | _, _, .nil => rfl
  | _, _, .cons k _ _ _ _ _ hrest => congrArg (List.cons k) (equivK_keys hrest)

mutual

/-- Identical content canonicalises identically (`canon` sorts every dict, so
insertion order washes out). -/
theorem canon_eq_of_equiv {a b : PyVal} (h : PyEquiv a b) : canon a = canon b :=
  match h with
  | .pnone => rfl
  | .pbool _ => rfl
  | .pint _ => rfl
  | .pfloat _ => rfl
  | .pstr _ => rfl
  | .plist xs ys hl => congrArg PyVal.plist (canonL_eq_of_equivL hl)
  | .pdict xs ys zs hnx hny hk hperm => by
      show PyVal.pdict (sortKV (canonK xs)) = PyVal.pdict (sortKV (canonK ys))
      have h1 : canonK xs = canonK zs := canonK_eq_of_equivK hk
      have hpk : List.Perm (canonK zs) (canonK ys) := by
        rw [canonK_eq_map zs, canonK_eq_map ys]
        exact hperm.map _
      have hndz : NodupKeys (canonK zs) := by
        have hkeys : (canonK zs).map Prod.fst = zs.map Prod.fst := by
          rw [canonK_eq_map]; simp
        have hndzs : NodupKeys zs := by
          unfold NodupKeys
          have := (hperm.map Prod.fst).nodup_iff
          exact this.mpr hny
        unfold NodupKeys
        rw [hkeys]
        exact hndzs
      rw [h1, sortKV_eq_of_perm hpk hndz]

/-- Pointwise version of `canon_eq_of_equiv` for list elements. -/
theorem canonL_eq_of_equivL {xs ys : List PyVal} (h : PyEquivL xs ys) :
    canonL xs = canonL ys :=
  match h with
  | .nil => rfl
  | .cons x y xs ys hxy hrest => by
      show canon x :: canonL xs = canon y :: canonL ys
      rw [canon_eq_of_equiv hxy, canonL_eq_of_equivL hrest]

/-- Pointwise version of `canon_eq_of_equiv` for dict entries. -/
theorem canonK_eq_of_equivK {xs ys : List (String × PyVal)} (h : PyEquivK xs ys) :
    canonK xs = canonK ys :=
  match h with
  | .nil => rfl
  | .cons k v w xs ys hvw hrest => by
      show (k, canon v) :: canonK xs = (k, canon w) :: canonK ys
      rw [canon_eq_of_equiv hvw, canonK_eq_of_equivK hrest]

end

/-! ## Claim theorems: the Analysis Client error paths -/

/-- C4: for every `analyze()` call whose single HTTP exchange fails at the
transport level (timeout before a response, DNS failure, connection refused —
all surfacing as `URLError`), the client raises exactly one transport error
whose message carries the underlying cause description, and the request log
holds exactly the one built request: no retry is issued. -/
theorem transport_failure_single_error_no_retry :
    ∀ (cfg : AnalyzerConfig) (snapshot : TelemetrySnapshot) (cause : String),
      analyzeWithLog cfg snapshot (.urlError cause) =
        (.error (.runtimeError ("Failed to reach ChatGPT API: " ++ cause)),
         [buildRequest cfg snapshot]) :=
  fun _ _ _ => rfl

/-- C6: for every non-2xx HTTP response, `analyze()` raises a protocol error
whose message carries the numeric status code and the best-effort decoded
error body text, and issues exactly the one request; in particular an HTTP
401 response with body `{"error":"bad key"}` yields the error message
containing status 401 and that body text. -/
theorem http_error_protocol_error :
    (∀ (cfg : AnalyzerConfig) (snapshot : TelemetrySnapshot) (code : Int)
        (body : String),
      analyzeWithLog cfg snapshot (.httpError code body) =
        (.error (.runtimeError
          ("ChatGPT API returned HTTP " ++ toString code ++ ": " ++ body)),
         [buildRequest cfg snapshot])) ∧
    (analyzeWithLog cfgEx snapEx (.httpError 401 body401)).1 =
      .error (.runtimeError ("ChatGPT API returned HTTP 401: " ++ body401)) :=
  ⟨fun _ _ _ _ => rfl, rfl⟩

/-- C10: for every 2xx HTTP response whose body is not valid JSON, `analyze()`
raises the JSON-decoding error unguarded — an error that is not one of the
`RuntimeError` kinds (protocol error, transport error) the method raises
itself — rather than degrading to an empty analysis string. -/
theorem invalid_json_unguarded_decode_error :
    ∀ (cfg : AnalyzerConfig) (snapshot : TelemetrySnapshot) (msg : String),
      analyzeWithLog cfg snapshot (.success (.error msg)) =
        (.error (.jsonDecodeError msg), [buildRequest cfg snapshot]) ∧
      (PyError.jsonDecodeError msg).isRuntime = false :=
  fun _ _ _ => ⟨rfl, rfl⟩

/-- C9: for every snapshot, configuration and network outcome, the one
request `analyze()` issues is a POST to the configured endpoint with headers
`Content-Type: application/json` and `Authorization: Bearer <apiKey>`, whose
JSON body holds the model name, exactly two messages — the fixed system
instruction followed by a user message embedding the snapshot's JSON in a
fenced code block — and temperature fixed at 0.2. -/
theorem request_shape :
    ∀ (cfg : AnalyzerConfig) (snapshot : TelemetrySnapshot) (net : NetOutcome),
      (analyzeWithLog cfg snapshot net).2 =
        [{ url := cfg.endpoint,
           data := dumpC (.pdict
             [("model", .pstr cfg.model),
              ("messages", .plist
                 [.pdict [("role", .pstr "system"),
                          ("content", .pstr systemContent)],
                  .pdict [("role", .pstr "user"),
                          ("content", .pstr
                            ("Here is a telemetry snapshot. Summarize notable points and suggest next steps if something looks problematic.\n\n```json\n"
                              ++ snapshot.to_json ++ "\n```"))]]),
              ("temperature", .pfloat (mkRat 1 5))]),
           headers := [("Content-Type", "application/json"),
                       ("Authorization", "Bearer " ++ cfg.api_key)],
           method := "POST" }] :=
  fun _ _ _ => rfl

/-! ## Claim theorems: the Snapshot Assembler -/

/-- C1 counterexample: on a host without `os.getloadavg` the snapshot still
carries the `load_average` key, bound to Python `None` (serialized `null`) —
the key is not absent, contradicting the claim's presence/absence reading. -/
theorem load_average_key_present_when_unsupported :
    (collect envBase).map (fun s => pyGet s.data "load_average") =
      .ok (some PyVal.pnone) ∧
    (some PyVal.pnone : Option PyVal) ≠ none :=
  ⟨rfl, fun h => Option.noConfusion h⟩

/-- C1 (amended): on every host lacking the load-average facility the
snapshot maps the `load_average` key to the null value (not absent); on every
host whose facility answers, the key maps to the three-key
`{1min, 5min, 15min}` mapping of floats. -/
theorem load_average_null_or_three_key_mapping :
    ∀ env : Env,
      (env.loadavg = none →
        (collect env).map (fun s => pyGet s.data "load_average") =
          .ok (some PyVal.pnone)) ∧
      (∀ one five fifteen, env.loadavg = some (.ok (one, five, fifteen)) →
        (collect env).map (fun s => pyGet s.data "load_average") =
          .ok (some (.pdict [("1min", .pfloat one), ("5min", .pfloat five),
                             ("15min", .pfloat fifteen)]))) := by
  intro env
  constructor
  · intro h
    unfold collect load_average
    rw [h]
    rfl
  · intro one five fifteen h
    unfold collect load_average
    rw [h]
    rfl

/-- Witness for C1: both branches evaluated at concrete hosts. -/
theorem load_average_null_or_three_key_mapping_witness :
    (collect envBase).map (fun s => pyGet s.data "load_average") =
      .ok (some PyVal.pnone) ∧
    (collect envLoad).map (fun s => pyGet s.data "load_average") =
      .ok (some (.pdict [("1min", .pfloat (mkRat 1 1)),
                         ("5min", .pfloat (mkRat 2 1)),
                         ("15min", .pfloat (mkRat 3 1))])) :=
  ⟨(load_average_null_or_three_key_mapping envBase).1 rfl,
   (load_average_null_or_three_key_mapping envLoad).2 _ _ _ rfl⟩

/-- C3 counterexample: a state of the optional OS facilities in which a
sub-collector fails but `collect()` raises instead of absorbing the failure —
the load-average facility is present yet raises `OSError` (as CPython
documents it may), and `hasattr` does not guard the call itself. -/
theorem collect_raises_when_getloadavg_raises :
    collect envRaise = .error () := rfl

/-- C3 (amended): `collect()` absorbs every failure of the file-based
sub-collectors (missing or unreadable memory-info and per-process status
files, over all file-system states) and a missing load-average facility,
returning a snapshot; only a present-but-raising load-average facility
propagates. -/
theorem collect_total_unless_getloadavg_raises :
    ∀ env : Env, env.loadavg ≠ some (.error ()) →
      ∃ snap, collect env = .ok snap := by
  intro env h
  unfold collect load_average
  cases henv : env.loadavg with
  | none => exact ⟨_, rfl⟩
  | some r =>
      cases r with
      | ok t =>
          obtain ⟨one, rest⟩ := t
          obtain ⟨five, fifteen⟩ := rest
          exact ⟨_, rfl⟩
      | error e => cases e; exact absurd henv h

/-- Witness for C3: a host whose memory-info and status files exist but
raise on every read still yields a snapshot. -/
theorem collect_total_unless_getloadavg_raises_witness :
    ∃ snap, collect envFsErr = .ok snap :=
  collect_total_unless_getloadavg_raises envFsErr (fun h => Option.noConfusion h)

/-! ## Claim theorems: response extraction -/

/-- Iterating only string elements (the keys of a dict, or the characters of
a string) never yields message content. -/
theorem findSome_contentStrOf_pstrs {α : Type} (f : α → String) :
    ∀ l : List α, (l.map (fun x => PyVal.pstr (f x))).findSome? contentStrOf = none
  | [] => rfl
  | x :: xs => by
      simp only [List.map_cons, List.findSome?_cons]
      show (match contentStrOf (.pstr (f x)) with
            | some b => some b
            | none => (xs.map (fun x => PyVal.pstr (f x))).findSome? contentStrOf) = none
      rw [show contentStrOf (.pstr (f x)) = none from rfl]
      exact findSome_contentStrOf_pstrs f xs

/-- C2 (amended): for every decoded response, the extracted analysis equals
the trimmed FIRST STRING-TYPED message content found by iterating the
choices in order — even when that string is empty or whitespace-only — or
the empty string when no choice carries string-typed content; in particular
the body with content `" hello "` yields `"hello"`. -/
theorem extract_message_first_string_content :
    (∀ resp : List (String × PyVal), extract_message resp = specFirstStr resp) ∧
    extract_message [("choices", .plist [.pdict [("message",
      .pdict [("content", .pstr " hello ")])]])] = "hello" := by
  refine ⟨?_, rfl⟩
  intro resp
  unfold extract_message specFirstStr
  cases hc : (pyGet resp "choices").getD .pnone with
  | pnone => rfl
  | pbool b => rfl
  | pint n => rfl
  | pfloat q => rfl
  | plist xs => rfl
  | pdict kvs =>
      show (match (kvs.map (fun kv => PyVal.pstr kv.1)).findSome? contentStrOf with
            | some s => pyStrip s
            | none => "") = ""
      rw [findSome_contentStrOf_pstrs Prod.fst kvs]
  | pstr s =>
      show (match (s.data.map (fun c =>
              PyVal.pstr (String.singleton c))).findSome? contentStrOf with
            | some s => pyStrip s
            | none => "") = ""
      rw [findSome_contentStrOf_pstrs String.singleton s.data]

/-- C2 counterexample: a response whose first choice carries the empty string
and whose second carries `"hi"` — the code returns `""` (it stops at the
first string-typed content) while the claim's first-non-empty rule demands
`"hi"`. -/
theorem extract_message_not_first_nonempty :
    extract_message respC2 = "" ∧ specFirstNonEmpty respC2 = "hi" ∧
    extract_message respC2 ≠ specFirstNonEmpty respC2 :=
  ⟨rfl, rfl, by decide⟩

/-- C7: for every successfully decoded response none of whose choices yields
string-typed message content — including `choices` being absent, empty, or
any of `choices`/`message`/`content` being wrongly typed — extraction
returns the empty string without error; in particular the bodies
`{"choices":[]}` and `{}` both yield `""`. -/
theorem degenerate_response_empty_analysis :
    (∀ resp : List (String × PyVal), noStringContent resp = true →
      extract_message resp = "") ∧
    extract_message [("choices", .plist [])] = "" ∧
    extract_message ([] : List (String × PyVal)) = "" := by
  refine ⟨?_, rfl, rfl⟩
  intro resp h
  unfold extract_message
  unfold noStringContent at h
  cases hi : iterElems ((pyGet resp "choices").getD .pnone) with
  | none => rfl
  | some elems =>
      rw [hi] at h
      have hall : ∀ a ∈ elems, (contentStrOf a).isNone = true := List.all_eq_true.mp h
      have hnone : elems.findSome? contentStrOf = none := by
        rw [List.findSome?_eq_none_iff]
        intro a ha
        exact Option.isNone_iff_eq_none.mp (hall a ha)
      show (match elems.findSome? contentStrOf with
            | some s => pyStrip s
            | none => "") = ""
      rw [hnone]

/-- Witness for C7: a response with a wrongly-typed content field and a
choice with no message evaluates to the empty analysis. -/
theorem degenerate_response_empty_analysis_witness :
    extract_message [("choices", .plist
      [.pdict [("message", .pdict [("content", .pint 42)])],
       .pdict [("message", .pstr "oops")], .pdict []])] = "" :=
  degenerate_response_empty_analysis.1 _ (by decide)

/-! ## Claim theorems: the key/value file parser -/

/-- An element that fails the predicate survives `dropWhile`. -/
theorem mem_dropWhile_of_not {p : Char → Bool} :
    ∀ {l : List Char} {c : Char}, c ∈ l → p c = false → c ∈ l.dropWhile p := by
  intro l
  induction l with
  | nil => intro c h _; cases h
  | cons a as ih =>
      intro c hc hpc
      by_cases ha : p a = true
      · rw [List.dropWhile_cons_of_pos ha]
        rcases List.mem_cons.mp hc with hca | hcas
        · subst hca; rw [hpc] at ha; cases ha
        · exact ih hcas hpc
      · rw [List.dropWhile_cons_of_neg ha]
        exact hc

/-- A colon survives stripping (it is not whitespace). -/
theorem colon_mem_strip {l : List Char} (h : hasColon l = true) :
    ':' ∈ stripChars l := by
  have hmem : ':' ∈ l := by
    unfold hasColon at h
    exact List.elem_iff.mp h
  have hws : isSpaceChar ':' = false := by decide
  unfold stripChars
  rw [List.mem_reverse]
  apply mem_dropWhile_of_not _ hws
  rw [List.mem_reverse]
  exact mem_dropWhile_of_not hmem hws

/-- A line whose `strip()` is empty contains no colon, so the parser's
blank-line skip ignores only lines the colon test would ignore anyway. -/
theorem no_colon_of_blank {l : List Char} (h : (stripChars l).isEmpty = true) :
    hasColon l = false := by
  cases hcol : hasColon l with
  | false => rfl
  | true =>
      exfalso
      have := colon_mem_strip hcol
      rw [List.isEmpty_iff.mp h] at this
      cases this

/-- Splitting at the first colon decomposes the line: the key part, the first
colon, the remainder (with any further colons kept verbatim), and the key
part itself contains no colon. -/
theorem splitFirstColon_decomposes :
    ∀ l : List Char, hasColon l = true →
      l = (splitFirstColon l).1 ++ ':' :: (splitFirstColon l).2 ∧
      hasColon (splitFirstColon l).1 = false := by
  intro l hl
  constructor
  · unfold splitFirstColon
    have hmem : ':' ∈ l := by
      unfold hasColon at hl
      exact List.elem_iff.mp hl
    have hdrop : ∀ m : List Char, ':' ∈ m →
        m.dropWhile (fun c => c != ':') = ':' :: (m.dropWhile (fun c => c != ':')).tail := by
      intro m hm
      induction m with
      | nil => cases hm
      | cons a as ih =>
          by_cases ha : a = ':'
          · subst ha
            rw [List.dropWhile_cons_of_neg (by simp)]
            rfl
          · have has : ':' ∈ as := by
              rcases List.mem_cons.mp hm with h1 | h2
              · exact absurd h1.symm ha
              · exact h2
            rw [List.dropWhile_cons_of_pos (by simp [bne_iff_ne]; exact ha)]
            exact ih has
    calc l = l.takeWhile (fun c => c != ':') ++ l.dropWhile (fun c => c != ':') :=
            (List.takeWhile_append_dropWhile _ _).symm
      _ = l.takeWhile (fun c => c != ':') ++
            ':' :: (l.dropWhile (fun c => c != ':')).tail := by rw [← hdrop l hmem]
      _ = _ := by rw [List.drop_one]
  · unfold splitFirstColon hasColon
    cases hmem : (l.takeWhile (fun c => c != ':')).contains ':' with
    | false => rfl
    | true =>
        exfalso
        have : ':' ∈ l.takeWhile (fun c => c != ':') := List.elem_iff.mp hmem
        have := List.mem_takeWhile_imp this
        simp at this

/-- C5: the parser keeps exactly the lines containing a colon — the blank
lines it skips contain no colon anyway — and maps each kept line to an
entry whose key is the stripped text before the FIRST colon and whose value
is the stripped text after it (later colons preserved verbatim), where
splitting at the first colon means the line decomposes as
`key ++ ':' :: value` with no colon inside the key part. -/
theorem parse_skips_exactly_colonless_lines :
    (∀ lines : List (List Char), parseKVLines lines = specParseKV lines) ∧
    (∀ l : List Char, hasColon l = true →
      l = (splitFirstColon l).1 ++ ':' :: (splitFirstColon l).2 ∧
      hasColon (splitFirstColon l).1 = false) := by
  constructor
  · intro lines
    unfold parseKVLines specParseKV
    apply List.foldl_ext
    intro acc line _
    by_cases hblank : (stripChars line).isEmpty = true
    · rw [if_pos hblank, no_colon_of_blank hblank, if_neg (by simp)]
    · rw [if_neg hblank]
      cases hcol : hasColon line with
      | false => simp
      | true => simp
  · exact splitFirstColon_decomposes

/-- Witness for C5: the equivalence and the decomposition evaluated on
concrete lines (a normal entry, a blank line, a colonless line, a
colon-containing value). -/
theorem parse_skips_exactly_colonless_lines_witness :
    parseKVLines linesEx = specParseKV linesEx ∧
    "a:b:c".data = (splitFirstColon "a:b:c".data).1 ++ ':' ::
      (splitFirstColon "a:b:c".data).2 :=
  ⟨parse_skips_exactly_colonless_lines.1 linesEx,
   (parse_skips_exactly_colonless_lines.2 "a:b:c".data (by decide)).1⟩

/-! ## Claim theorem: serialization determinism -/

/-- C8: snapshot serialization is deterministic — serializing the same
snapshot twice yields identical bytes, and any two snapshots holding
identical content (the same bindings at every level, regardless of the
insertion order of any dict) serialize to byte-identical JSON, because
`to_json` renders every dict in lexicographically sorted key order with
2-space indentation. -/
theorem snapshot_serialization_deterministic :
    (∀ s : TelemetrySnapshot, s.to_json = s.to_json) ∧
    (∀ s1 s2 : TelemetrySnapshot, PyEquiv (.pdict s1.data) (.pdict s2.data) →
      s1.to_json = s2.to_json) :=
  ⟨fun _ => rfl,
   fun _ _ h => congrArg (dumpP 0) (canon_eq_of_equiv h)⟩

/-- Witness for C8: two concrete snapshots with the same content inserted in
different orders at both nesting levels serialize identically. -/
theorem snapshot_serialization_deterministic_witness :
    snapW1.to_json = snapW2.to_json :=
  snapshot_serialization_deterministic.2 snapW1 snapW2
    (.pdict _ _ [("b", .pint 1), ("a", .pdict [("x", .pint 2), ("y", .pstr "v")])]
      (by decide) (by decide)
      (.cons "b" _ _ _ _ (.pint 1)
        (.cons "a" _ _ _ _
          (.pdict _ _ [("y", .pstr "v"), ("x", .pint 2)]
            (by decide) (by decide)
            (.cons "y" _ _ _ _ (.pstr "v")
              (.cons "x" _ _ _ _ (.pint 2) .nil))
            (.swap _ _ _))
          .nil))
      (.swap _ _ _))
